import Mathlib

/-!
Verification of the `remove-openshift` worker (lagoon).

The development shallowly embeds the worker source:
* `ocsafety` — the name-sanitizing transform
  (`string.toLocaleLowerCase().replace(/[^0-9a-z-]/g,'-')`); the locale
  lowercasing is modelled by `Char.toLower` applied characterwise.
* `resolveNames` — the `switch (type)` block deriving `environmentName`
  and `openshiftProject` (JS `undefined` is modelled by `Option`).
* `messageConsumer` — the full handler, as a function from the task and
  the behaviour of the three external systems (OpenShift info API,
  cluster exists/delete, GraphQL `deleteEnvironment`) to the ordered
  list of external actions performed plus the JS-level result
  (normal return, or a thrown error).
* `deathHandler` — the dead-letter callback.
-/

namespace Lagoon

/-- A character matching the class `[0-9a-z-]` of the source regex. -/
def legalChar (c : Char) : Bool :=
  c.isDigit || c.isLower || c == '-'

/-- `const ocsafety = string => string.toLocaleLowerCase().replace(/[^0-9a-z-]/g,'-')`
(part_000 line 14).  Lowercasing is modelled characterwise by `Char.toLower`. -/
def ocsafety (s : String) : String :=
  String.mk ((s.data.map Char.toLower).map (fun c => if legalChar c then c else '-'))

/-- The decoded message payload (part_000 lines 17-22).  Fields that may be
absent in the JSON (`branch`, `pullrequestNumber`) are `Option`s. -/
structure RemoveTask where
  projectName : String
  branch : Option String
  pullrequestNumber : Option Nat
  type : String
deriving DecidableEq, Repr

/-- A JS `Error` value; `new Error` with no argument has message `""`. -/
structure JsError where
  message : String
deriving DecidableEq, Repr

/-- JS template interpolation of a possibly-`undefined` number. -/
def jsShowOptNat : Option Nat → String
  | none => "undefined"
  | some n => Nat.repr n

/-- JS template interpolation of a possibly-`undefined` string. -/
def jsShowOptStr : Option String → String
  | none => "undefined"
  | some s => s

/-- Result of one OpenShift API call as the worker's catch blocks see it:
success, an error with `err.code == 404`, or any other error. -/
inductive ApiResult where
  | ok
  | notFound
  | otherErr (msg : String)
deriving DecidableEq, Repr

/-- Behaviour of the external systems for one handling attempt. -/
structure Behavior where
  getInfoResult : Except JsError Unit
  existsResult : ApiResult
  deleteResult : ApiResult
  registryResult : Except JsError Unit
deriving Repr

/-- One observable external side effect of the handler, in order. -/
inductive Action where
  | callGetInfo (projectName : String)
  | callExists (openshiftProject : Option String)
  | callDelete (openshiftProject : Option String)
  | callDeleteEnvironment (environmentName : Option String) (projectName : String)
  | emitLog (severity : String) (projectName : String) (event : String) (message : String)
deriving DecidableEq, Repr

/-- The `switch (type)` name derivation (part_000 lines 30-48).  Unknown
`type` values match no case: both names stay `undefined` (`none`).  In the
`branch` case, `ocsafety(branch)` on an absent branch throws a `TypeError`,
which the surrounding catch rethrows unchanged. -/
def resolveNames (task : RemoveTask) : Except JsError (Option String × Option String) :=
  let safeProjectName := ocsafety task.projectName
  match task.type with
  | "pullrequest" =>
      .ok (some ("pr-" ++ jsShowOptNat task.pullrequestNumber),
           some (safeProjectName ++ "-pr-" ++ jsShowOptNat task.pullrequestNumber))
  | "branch" =>
      match task.branch with
      | none => .error ⟨"TypeError: branch is undefined"⟩
      | some b =>
          .ok (some b, some (safeProjectName ++ "-" ++ ocsafety b))
  | _ => .ok (none, none)

/-- The success-log message template of part_000 lines 76 and 90. -/
def removeFinishedMessage (projectName : String) (openshiftProject : Option String) : String :=
  "*[" ++ projectName ++ "]* remove `" ++ jsShowOptStr openshiftProject ++ "`"

/-- `messageConsumer` (part_000 lines 16-106): performs the external calls in
order and returns the trace together with the JS-level outcome.  Note the
three catch blocks at lines 79-82, 92-95 and 101-104 each `throw new Error`
(a fresh error with empty message), and the 404 branch of the exists check
returns after emitting a success log, without deleting the environment in
the API. -/
def messageConsumer (task : RemoveTask) (beh : Behavior) :
    List Action × Except JsError Unit :=
  let tr0 := [Action.callGetInfo task.projectName]
  match beh.getInfoResult with
  | .error e => (tr0, .error e)
  | .ok _ =>
    match resolveNames task with
    | .error e => (tr0, .error e)
    | .ok (environmentName, openshiftProject) =>
      let tr1 := tr0 ++ [Action.callExists openshiftProject]
      match beh.existsResult with
      | .notFound =>
          (tr1 ++ [Action.emitLog "success" task.projectName
                    "task:remove-openshift:finished"
                    (removeFinishedMessage task.projectName openshiftProject)],
           .ok ())
      | .otherErr _ => (tr1, .error ⟨""⟩)
      | .ok =>
        let tr2 := tr1 ++ [Action.callDelete openshiftProject]
        match beh.deleteResult with
        | .notFound => (tr2, .error ⟨""⟩)
        | .otherErr _ => (tr2, .error ⟨""⟩)
        | .ok =>
          let tr3 := tr2 ++ [Action.emitLog "success" task.projectName
                              "task:remove-openshift:finished"
                              (removeFinishedMessage task.projectName openshiftProject)]
          let tr4 := tr3 ++ [Action.callDeleteEnvironment environmentName task.projectName]
          match beh.registryResult with
          | .ok _ => (tr4, .ok ())
          | .error _ => (tr4, .error ⟨""⟩)

/-- JS `branch || pullrequestNumber` under template interpolation
(part_000 lines 117 and 136): an empty string is falsy. -/
def jsOrBranchPr : Option String → Option Nat → String
  | some b, pr => if b = "" then jsShowOptNat pr else b
  | none, pr => jsShowOptNat pr

/-- The dead-letter error message template of part_000 lines 120-123. -/
def deathMessage (projectName openshiftProject lastError : String) : String :=
  "*[" ++ projectName ++ "]* remove `" ++ openshiftProject ++ "` ERROR:\n```\n"
    ++ lastError ++ "\n```"

/-- `deathHandler` (part_000 lines 108-126): derives its own name via
`ocsafety` over the concatenated project and branch-or-PR value, then emits
one error log. -/
def deathHandler (task : RemoveTask) (lastError : String) : List Action :=
  let openshiftProject :=
    ocsafety (task.projectName ++ "-" ++ jsOrBranchPr task.branch task.pullrequestNumber)
  [Action.emitLog "error" task.projectName "task:remove-openshift:error"
    (deathMessage task.projectName openshiftProject lastError)]

/-- The retry-warning message template of part_000 lines 139-143. -/
def retryMessage (projectName openshiftProject error : String) (retryExpirationSecs : Nat) :
    String :=
  "*[" ++ projectName ++ "]* remove `" ++ openshiftProject ++ "` ERROR:\n```\n"
    ++ error ++ "\n```\nRetrying in " ++ Nat.repr retryExpirationSecs ++ " secs"

/-- `retryHandler` (part_000 lines 128-145). -/
def retryHandler (task : RemoveTask) (error : String) (retryExpirationSecs : Nat) :
    List Action :=
  let openshiftProject :=
    ocsafety (task.projectName ++ "-" ++ jsOrBranchPr task.branch task.pullrequestNumber)
  [Action.emitLog "warn" task.projectName "task:remove-openshift:retry"
    (retryMessage task.projectName openshiftProject error retryExpirationSecs)]

/-- Does an action call `deleteEnvironment` (the registry markDeleted)? -/
def isRegistryCall : Action → Bool
  | .callDeleteEnvironment _ _ => true
  | _ => false

/-- Does an action emit a success event? -/
def isSuccessEmit : Action → Bool
  | .emitLog sev _ _ _ => sev == "success"
  | _ => false

end Lagoon

namespace Lagoon

/-! ### Properties of the sanitizer -/

theorem legal_toNat {c : Char} (h : legalChar c = true) :
    (48 ≤ c.toNat ∧ c.toNat ≤ 57) ∨ (97 ≤ c.toNat ∧ c.toNat ≤ 122) ∨ c.toNat = 45 := by
  unfold legalChar Char.isDigit Char.isLower at h
  simp only [Bool.or_eq_true, Bool.and_eq_true, decide_eq_true_eq, beq_iff_eq, ge_iff_le] at h
  rcases h with (⟨h1, h2⟩ | ⟨h1, h2⟩) | h
  · rw [UInt32.le_def, BitVec.le_def] at h1 h2
    left; exact ⟨h1, h2⟩
  · rw [UInt32.le_def, BitVec.le_def] at h1 h2
    right; left; exact ⟨h1, h2⟩
  · subst h; right; right; rfl

theorem toLower_of_legal {c : Char} (h : legalChar c = true) : c.toLower = c := by
  have hb := legal_toNat h
  unfold Char.toLower
  rw [if_neg]
  omega

theorem legalChar_toLower_replace (c : Char) :
    legalChar (if legalChar c.toLower then c.toLower else '-') = true := by
  split
  · assumption
  · decide

theorem ocsafety_data_legal (s : String) : ∀ c ∈ (ocsafety s).data, legalChar c = true := by
  intro c hc
  unfold ocsafety at hc
  simp only [List.map_map, List.mem_map] at hc
  obtain ⟨d, _, hd⟩ := hc
  subst hd
  exact legalChar_toLower_replace d

theorem ocsafety_fixed {s : String} (h : ∀ c ∈ s.data, legalChar c = true) :
    ocsafety s = s := by
  apply String.ext
  show (s.data.map Char.toLower).map _ = s.data
  rw [List.map_map]
  conv_rhs => rw [← List.map_id s.data]
  apply List.map_congr_left
  intro c hc
  simp only [Function.comp_apply, id_eq]
  rw [toLower_of_legal (h c hc), if_pos (h c hc)]

theorem ocsafety_idem (s : String) : ocsafety (ocsafety s) = ocsafety s :=
  ocsafety_fixed (ocsafety_data_legal s)

theorem ocsafety_append (a b : String) : ocsafety (a ++ b) = ocsafety a ++ ocsafety b := by
  apply String.ext
  unfold ocsafety
  simp [String.data_append]

/-! ### Decimal representations consist of digits -/

theorem digitChar_isDigit {n : Nat} (h : n < 10) : (Nat.digitChar n).isDigit = true := by
  interval_cases n <;> rfl

theorem toDigitsCore_digits (fuel : Nat) :
    ∀ (n : Nat) (ds : List Char), (∀ c ∈ ds, c.isDigit = true) →
      ∀ c ∈ Nat.toDigitsCore 10 fuel n ds, c.isDigit = true := by
  induction fuel with
  | zero => intro n ds hds; simpa [Nat.toDigitsCore] using hds
  | succ f ih =>
    intro n ds hds c hc
    simp only [Nat.toDigitsCore] at hc
    split at hc
    · rcases List.mem_cons.mp hc with h | h
      · subst h; exact digitChar_isDigit (Nat.mod_lt _ (by omega))
      · exact hds c h
    · refine ih (n / 10) (Nat.digitChar (n % 10) :: ds) ?_ c hc
      intro d hd
      rcases List.mem_cons.mp hd with h | h
      · subst h; exact digitChar_isDigit (Nat.mod_lt _ (by omega))
      · exact hds d h

theorem natRepr_digits (n : Nat) : ∀ c ∈ (Nat.repr n).data, c.isDigit = true := by
  intro c hc
  have hd : (Nat.repr n).data = Nat.toDigits 10 n := rfl
  rw [hd] at hc
  exact toDigitsCore_digits (n + 1) n [] (by simp) c hc

theorem legalChar_of_isDigit {c : Char} (h : c.isDigit = true) : legalChar c = true := by
  unfold legalChar
  rw [h]
  rfl

theorem ocsafety_natRepr (n : Nat) : ocsafety (Nat.repr n) = Nat.repr n :=
  ocsafety_fixed (fun c hc => legalChar_of_isDigit (natRepr_digits n c hc))

end Lagoon

namespace Lagoon

/-! ### Claim theorems -/

/-- C6: for every valid task with kind PullRequest, name resolution produces
`clusterProjectName = ocsafety projectName ++ "-pr-" ++ pullRequestNumber` and
`registryEnvironmentName = "pr-" ++ pullRequestNumber`, for any project name. -/
theorem resolve_pullrequest (p : String) (b : Option String) (n : Nat) :
    resolveNames ⟨p, b, some n, "pullrequest"⟩ =
      .ok (some ("pr-" ++ Nat.repr n), some (ocsafety p ++ "-pr-" ++ Nat.repr n)) := rfl

/-- C7: for every valid task with kind Branch, name resolution produces
`clusterProjectName = ocsafety projectName ++ "-" ++ ocsafety branch`, while
`registryEnvironmentName` is the raw, unsanitized branch string. -/
theorem resolve_branch (p b : String) (n : Option Nat) :
    resolveNames ⟨p, some b, n, "branch"⟩ =
      .ok (some b, some (ocsafety p ++ "-" ++ ocsafety b)) := rfl

theorem legal_append {a b : String} (ha : ∀ c ∈ a.data, legalChar c = true)
    (hb : ∀ c ∈ b.data, legalChar c = true) : ∀ c ∈ (a ++ b).data, legalChar c = true := by
  intro c hc
  rw [String.data_append] at hc
  rcases List.mem_append.mp hc with h | h
  · exact ha c h
  · exact hb c h

theorem legal_jsShowOptNat (o : Option Nat) :
    ∀ c ∈ (jsShowOptNat o).data, legalChar c = true := by
  cases o with
  | none => decide
  | some n =>
      intro c hc
      exact legalChar_of_isDigit (natRepr_digits n c hc)

/-- C8: whenever name resolution yields a cluster project name, that name
consists only of lowercase letters, digits and hyphens. -/
theorem clusterProjectName_legal (task : RemoveTask) (env : Option String) (cp : String)
    (h : resolveNames task = .ok (env, some cp)) :
    cp.data.all legalChar = true := by
  rw [List.all_eq_true]
  unfold resolveNames at h
  split at h
  · injection h with h
    rw [Prod.ext_iff] at h
    obtain ⟨-, h2⟩ := h
    injection h2 with h2
    subst h2
    exact legal_append (legal_append (ocsafety_data_legal _) (by decide))
      (legal_jsShowOptNat _)
  · split at h
    · exact Except.noConfusion h
    · injection h with h
      rw [Prod.ext_iff] at h
      obtain ⟨-, h2⟩ := h
      injection h2 with h2
      subst h2
      exact legal_append (legal_append (ocsafety_data_legal _) (by decide))
        (ocsafety_data_legal _)
  · injection h with h
    rw [Prod.ext_iff] at h
    obtain ⟨-, h2⟩ := h
    exact Option.noConfusion h2

/-- C8 witness: the branch task of the spec scenario resolves to the
cluster-legal name my-project-feature-x. -/
theorem clusterProjectName_legal_witness :
    ("my-project-feature-x" : String).data.all legalChar = true :=
  clusterProjectName_legal ⟨"My_Project", some "feature/X", none, "branch"⟩
    (some "feature/X") "my-project-feature-x" rfl

end Lagoon

namespace Lagoon

/-- C10: the sanitize transform is idempotent, and it is the identity on every
string already consisting only of lowercase letters, digits and hyphens. -/
theorem ocsafety_idempotent_and_identity :
    (∀ s, ocsafety (ocsafety s) = ocsafety s) ∧
    (∀ s, s.data.all legalChar = true → ocsafety s = s) :=
  ⟨ocsafety_idem, fun _ h => ocsafety_fixed (List.all_eq_true.mp h)⟩

/-- C10 witness: idempotence at My_Project!, identity at abc-123. -/
theorem ocsafety_idempotent_and_identity_witness :
    ocsafety (ocsafety "My_Project!") = ocsafety "My_Project!" ∧
    ocsafety "abc-123" = "abc-123" :=
  ⟨ocsafety_idempotent_and_identity.1 "My_Project!",
   ocsafety_idempotent_and_identity.2 "abc-123" (by decide)⟩

/-- C9: whenever the exists check fails with a non-404 error, or the delete
call fails, or the registry update fails, the error propagated to the
consumer is a freshly constructed `Error` with empty message: the original
failure's message is absent. -/
theorem consumer_error_message_empty (task : RemoveTask) (beh : Behavior)
    (names : Option String × Option String)
    (hg : beh.getInfoResult = .ok ()) (hr : resolveNames task = .ok names)
    (h : (∃ m, beh.existsResult = .otherErr m) ∨
         (beh.existsResult = .ok ∧ beh.deleteResult ≠ .ok) ∨
         (beh.existsResult = .ok ∧ beh.deleteResult = .ok ∧
           ∃ e, beh.registryResult = .error e)) :
    (messageConsumer task beh).2 = .error ⟨""⟩ := by
  obtain ⟨env, op⟩ := names
  obtain ⟨bg, bx, bd, br⟩ := beh
  simp only at hg
  subst hg
  rcases h with ⟨m, hm⟩ | ⟨hx, hd⟩ | ⟨hx, hd, e, he⟩
  · simp only at hm
    subst hm
    simp [messageConsumer, hr]
  · simp only at hx
    subst hx
    cases bd with
    | ok => exact absurd rfl hd
    | notFound => simp [messageConsumer, hr]
    | otherErr m => simp [messageConsumer, hr]
  · simp only at hx hd he
    subst hx
    subst hd
    subst he
    simp [messageConsumer, hr]

/-- C9 witness: a transient exists-check failure with message boom propagates
as an empty-message error. -/
theorem consumer_error_message_empty_witness :
    (messageConsumer ⟨"acme", some "main", none, "branch"⟩
      ⟨.ok (), .otherErr "boom", .ok, .ok ()⟩).2 = .error ⟨""⟩ :=
  consumer_error_message_empty ⟨"acme", some "main", none, "branch"⟩
    ⟨.ok (), .otherErr "boom", .ok, .ok ()⟩
    (some "main", some (ocsafety "acme" ++ "-" ++ ocsafety "main"))
    rfl rfl (.inl ⟨"boom", rfl⟩)

end Lagoon

namespace Lagoon

/-- C1 counterexample: on a 404 from the exists check (spec scenario task),
the handler returns successfully with one success event but performs zero
registry markDeleted calls, refuting that markDeleted is called exactly once. -/
theorem exists404_counterexample :
    messageConsumer ⟨"My_Project", some "feature/X", none, "branch"⟩
        ⟨.ok (), .notFound, .ok, .ok ()⟩ =
      ([.callGetInfo "My_Project", .callExists (some "my-project-feature-x"),
        .emitLog "success" "My_Project" "task:remove-openshift:finished"
          "*[My_Project]* remove `my-project-feature-x`"], .ok ()) ∧
    (messageConsumer ⟨"My_Project", some "feature/X", none, "branch"⟩
        ⟨.ok (), .notFound, .ok, .ok ()⟩).1.countP isRegistryCall = 0 :=
  ⟨rfl, by decide⟩

/-- C1 (amended): on a 404 from the exists check the handler skips the delete
call and also skips the registry markDeleted call entirely, returns
successfully, and emits exactly one success event. -/
theorem exists404_skips_registry (task : RemoveTask) (beh : Behavior)
    (env op : Option String)
    (hg : beh.getInfoResult = .ok ()) (hr : resolveNames task = .ok (env, op))
    (hx : beh.existsResult = .notFound) :
    messageConsumer task beh =
      ([.callGetInfo task.projectName, .callExists op,
        .emitLog "success" task.projectName "task:remove-openshift:finished"
          (removeFinishedMessage task.projectName op)], .ok ()) := by
  obtain ⟨bg, bx, bd, br⟩ := beh
  simp only at hg hx
  subst hg
  subst hx
  simp [messageConsumer, hr]

/-- C1 witness: the amended statement at the spec's branch scenario. -/
theorem exists404_skips_registry_witness :
    messageConsumer ⟨"My_Project", some "feature/X", none, "branch"⟩
        ⟨.ok (), .notFound, .otherErr "x", .error ⟨"y"⟩⟩ =
      ([.callGetInfo "My_Project", .callExists (some "my-project-feature-x"),
        .emitLog "success" "My_Project" "task:remove-openshift:finished"
          (removeFinishedMessage "My_Project" (some "my-project-feature-x"))], .ok ()) :=
  exists404_skips_registry ⟨"My_Project", some "feature/X", none, "branch"⟩
    ⟨.ok (), .notFound, .otherErr "x", .error ⟨"y"⟩⟩
    (some "feature/X") (some "my-project-feature-x") rfl rfl rfl

/-- C2 counterexample: in the full success path of the spec's pullrequest
scenario, the success event is emitted before the registry
deleteEnvironment call, refuting that it is emitted only after the registry
update completed. -/
theorem success_event_order_counterexample :
    (messageConsumer ⟨"acme", none, some 42, "pullrequest"⟩ ⟨.ok (), .ok, .ok, .ok ()⟩).1 =
      [.callGetInfo "acme", .callExists (some "acme-pr-42"),
       .callDelete (some "acme-pr-42"),
       .emitLog "success" "acme" "task:remove-openshift:finished"
         "*[acme]* remove `acme-pr-42`",
       .callDeleteEnvironment (some "pr-42") "acme"] ∧
    ((messageConsumer ⟨"acme", none, some 42, "pullrequest"⟩
        ⟨.ok (), .ok, .ok, .ok ()⟩).1.take 4).countP isSuccessEmit = 1 ∧
    ((messageConsumer ⟨"acme", none, some 42, "pullrequest"⟩
        ⟨.ok (), .ok, .ok, .ok ()⟩).1.take 4).countP isRegistryCall = 0 :=
  ⟨rfl, by decide, by decide⟩

/-- C2 (amended): in the full success path the side effects are strictly
sequential in the order info lookup, exists check, delete, success event,
registry update — the success event precedes the registry markDeleted
rather than following it. -/
theorem success_event_before_registry (task : RemoveTask) (beh : Behavior)
    (env op : Option String)
    (hg : beh.getInfoResult = .ok ()) (hr : resolveNames task = .ok (env, op))
    (hx : beh.existsResult = .ok) (hd : beh.deleteResult = .ok) :
    (messageConsumer task beh).1 =
      [.callGetInfo task.projectName, .callExists op, .callDelete op,
       .emitLog "success" task.projectName "task:remove-openshift:finished"
         (removeFinishedMessage task.projectName op),
       .callDeleteEnvironment env task.projectName] := by
  obtain ⟨bg, bx, bd, br⟩ := beh
  simp only at hg hx hd
  subst hg
  subst hx
  subst hd
  cases br with
  | ok v => simp [messageConsumer, hr]
  | error e => simp [messageConsumer, hr]

/-- C2 witness: the amended ordering at the spec's pullrequest scenario. -/
theorem success_event_before_registry_witness :
    (messageConsumer ⟨"acme", none, some 42, "pullrequest"⟩
        ⟨.ok (), .ok, .ok, .ok ()⟩).1 =
      [.callGetInfo "acme", .callExists (some "acme-pr-42"),
       .callDelete (some "acme-pr-42"),
       .emitLog "success" "acme" "task:remove-openshift:finished"
         (removeFinishedMessage "acme" (some "acme-pr-42")),
       .callDeleteEnvironment (some "pr-42") "acme"] :=
  success_event_before_registry ⟨"acme", none, some 42, "pullrequest"⟩
    ⟨.ok (), .ok, .ok, .ok ()⟩ (some "pr-42") (some "acme-pr-42") rfl rfl rfl rfl

end Lagoon

namespace Lagoon

/-- C3 counterexample: a task with unrecognized type gitcommit does not fail
at name resolution (both names resolve to undefined), and the handler
proceeds to the info and exists calls — it even returns success when the
exists check reports 404 — refuting the claimed InvalidTaskError. -/
theorem unknown_type_counterexample :
    resolveNames ⟨"acme", none, none, "gitcommit"⟩ = .ok (none, none) ∧
    messageConsumer ⟨"acme", none, none, "gitcommit"⟩ ⟨.ok (), .notFound, .ok, .ok ()⟩ =
      ([.callGetInfo "acme", .callExists none,
        .emitLog "success" "acme" "task:remove-openshift:finished"
          "*[acme]* remove `undefined`"], .ok ()) :=
  ⟨rfl, rfl⟩

/-- C3 (amended): a task whose type is missing or unrecognized does not fail
at name resolution — the switch falls through leaving both names undefined —
and the handler still performs the external info call (which precedes name
resolution) and then the cluster exists check with an undefined project
name; no InvalidTaskError is raised. -/
theorem unknown_type_no_error (task : RemoveTask) (beh : Behavior)
    (ht1 : task.type ≠ "pullrequest") (ht2 : task.type ≠ "branch")
    (hg : beh.getInfoResult = .ok ()) :
    resolveNames task = .ok (none, none) ∧
    (messageConsumer task beh).1.take 2 =
      [.callGetInfo task.projectName, .callExists none] := by
  have hres : resolveNames task = .ok (none, none) := by
    unfold resolveNames
    split
    · next heq => exact absurd heq ht1
    · next heq => exact absurd heq ht2
    · rfl
  refine ⟨hres, ?_⟩
  obtain ⟨bg, bx, bd, br⟩ := beh
  simp only at hg
  subst hg
  cases bx <;> cases bd <;> cases br <;> simp [messageConsumer, hres]

/-- C3 witness: the amended statement at type promote. -/
theorem unknown_type_no_error_witness :
    resolveNames ⟨"acme", some "main", some 1, "promote"⟩ = .ok (none, none) ∧
    (messageConsumer ⟨"acme", some "main", some 1, "promote"⟩
        ⟨.ok (), .otherErr "boom", .ok, .ok ()⟩).1.take 2 =
      [.callGetInfo "acme", .callExists none] :=
  unknown_type_no_error ⟨"acme", some "main", some 1, "promote"⟩
    ⟨.ok (), .otherErr "boom", .ok, .ok ()⟩ (by decide) (by decide) rfl

/-- C4 counterexample: with the cluster reporting the project present and the
delete call failing with 404, the handler throws (an empty fresh error),
while the exists-check 404 branch on the same task returns success — the two
not-found outcomes are not treated identically. -/
theorem delete404_counterexample :
    (messageConsumer ⟨"acme", some "main", none, "branch"⟩
        ⟨.ok (), .ok, .notFound, .ok ()⟩).2 = .error ⟨""⟩ ∧
    (messageConsumer ⟨"acme", some "main", none, "branch"⟩
        ⟨.ok (), .notFound, .ok, .ok ()⟩).2 = .ok () :=
  ⟨rfl, rfl⟩

/-- C4 (amended): a 404 from the delete call is treated like any other delete
failure — the handler stops after the delete call and throws a fresh
empty-message error; only the exists-check catch distinguishes 404. -/
theorem delete404_is_error (task : RemoveTask) (beh : Behavior)
    (env op : Option String)
    (hg : beh.getInfoResult = .ok ()) (hr : resolveNames task = .ok (env, op))
    (hx : beh.existsResult = .ok) (hd : beh.deleteResult = .notFound) :
    messageConsumer task beh =
      ([.callGetInfo task.projectName, .callExists op, .callDelete op],
       .error ⟨""⟩) := by
  obtain ⟨bg, bx, bd, br⟩ := beh
  simp only at hg hx hd
  subst hg
  subst hx
  subst hd
  simp [messageConsumer, hr]

/-- C4 witness: the amended statement at a concrete branch task. -/
theorem delete404_is_error_witness :
    messageConsumer ⟨"acme", some "main", none, "branch"⟩
        ⟨.ok (), .ok, .notFound, .ok ()⟩ =
      ([.callGetInfo "acme", .callExists (some "acme-main"),
        .callDelete (some "acme-main")], .error ⟨""⟩) :=
  delete404_is_error ⟨"acme", some "main", none, "branch"⟩
    ⟨.ok (), .ok, .notFound, .ok ()⟩ (some "main") (some "acme-main") rfl rfl rfl rfl

/-- C5 counterexample: for the pullrequest task acme/42 the worker resolves
clusterProjectName acme-pr-42, but the dead-letter handler derives acme-42
(no pr- segment) and its event message carries no attempt count — only the
project, the derived name and the last error string. -/
theorem death_name_counterexample :
    resolveNames ⟨"acme", none, some 42, "pullrequest"⟩ =
      .ok (some "pr-42", some "acme-pr-42") ∧
    deathHandler ⟨"acme", none, some 42, "pullrequest"⟩ "boom" =
      [.emitLog "error" "acme" "task:remove-openshift:error"
        (deathMessage "acme" "acme-42" "boom")] ∧
    ("acme-42" : String) ≠ "acme-pr-42" :=
  ⟨rfl, rfl, by decide⟩

/-- C5 (amended): the dead-letter handler emits exactly one error event whose
message carries the last failure's string and a name derived as
`ocsafety (projectName ++ "-" ++ (branch or pullRequestNumber))`; for Branch
tasks with a non-empty branch this coincides with the worker's
clusterProjectName, but for PullRequest tasks it differs from the worker's
clusterProjectName (the pr- segment is missing), and no attempt count is
carried. -/
theorem deathHandler_event (p b e : String) (n : Nat) (hb : b ≠ "") :
    deathHandler ⟨p, some b, none, "branch"⟩ e =
      [.emitLog "error" p "task:remove-openshift:error"
        (deathMessage p (ocsafety p ++ "-" ++ ocsafety b) e)] ∧
    deathHandler ⟨p, none, some n, "pullrequest"⟩ e =
      [.emitLog "error" p "task:remove-openshift:error"
        (deathMessage p (ocsafety p ++ "-" ++ Nat.repr n) e)] ∧
    (ocsafety p ++ "-" ++ Nat.repr n) ≠ (ocsafety p ++ "-pr-" ++ Nat.repr n) := by
  refine ⟨?_, ?_, ?_⟩
  · show [Action.emitLog "error" p "task:remove-openshift:error"
      (deathMessage p (ocsafety ((p ++ "-") ++ jsOrBranchPr (some b) none)) e)] = _
    rw [show jsOrBranchPr (some b) none = b from by simp [jsOrBranchPr, hb]]
    rw [ocsafety_append, ocsafety_append]
    rfl
  · show [Action.emitLog "error" p "task:remove-openshift:error"
      (deathMessage p (ocsafety ((p ++ "-") ++ jsOrBranchPr none (some n))) e)] = _
    rw [show jsOrBranchPr none (some n) = Nat.repr n from rfl]
    rw [ocsafety_append, ocsafety_append, ocsafety_natRepr]
    rfl
  · intro hcontra
    have hlen := congrArg String.length hcontra
    simp only [String.length_append] at hlen
    have h1 : ("-" : String).length = 1 := rfl
    have h4 : ("-pr-" : String).length = 4 := rfl
    omega

/-- C5 witness: the amended statement at project acme, branch main, PR 7. -/
theorem deathHandler_event_witness :
    deathHandler ⟨"acme", some "main", none, "branch"⟩ "boom" =
      [.emitLog "error" "acme" "task:remove-openshift:error"
        (deathMessage "acme" (ocsafety "acme" ++ "-" ++ ocsafety "main") "boom")] ∧
    deathHandler ⟨"acme", none, some 7, "pullrequest"⟩ "boom" =
      [.emitLog "error" "acme" "task:remove-openshift:error"
        (deathMessage "acme" (ocsafety "acme" ++ "-" ++ Nat.repr 7) "boom")] ∧
    (ocsafety "acme" ++ "-" ++ Nat.repr 7) ≠ (ocsafety "acme" ++ "-pr-" ++ Nat.repr 7) :=
  deathHandler_event "acme" "main" "boom" 7 (by decide)

end Lagoon
